import Mathlib

/-!
Verification of the GraphingLib repository (graphinglib/multifigure.py,
graphinglib/data_plotting_2d.py, graphinglib/tools.py) against its
natural-language specification.

The Python code is shallowly embedded:

* attribute values (`vars(element)` entries, style-dictionary entries) become
  the inductive type `PyVal`;
* a Python instance `__dict__` becomes an insertion-ordered association list
  `List (String × PyVal)`;
* the loaded figure-style configuration `self.default_params` (a dict of
  dicts) becomes `StyleDict`;
* mutation becomes explicit state passing, and Python exceptions
  (`KeyError`, the `RuntimeError` raised by a dict iterator when the dict
  grows during iteration, and the library's own `GraphingException`) become
  explicit error results;
* matplotlib backend calls (`_plot_element` forwarding, `Axes.legend`,
  `Figure.legend`) are recorded as an explicit trace of `BackendCall` events;
  purely cosmetic axis-setup calls (labels, limits, scales, ticks, grid) and
  the `draggable=True` retry around legend creation carry no information the
  specification claims depend on and are not recorded.
-/

/-- A Python attribute value: a string, a number (Python ints and floats are
modelled exactly as rationals), a boolean, or `None`. -/
inductive PyVal where
  | str (s : String)
  | num (q : Rat)
  | boolean (b : Bool)
  | pyNone
deriving DecidableEq, Repr

/-- An instance `__dict__`: insertion-ordered association list. -/
abbrev AttrDict := List (String × PyVal)

/-- The loaded style configuration `self.default_params`: a dict mapping a
class name (`"Curve"`, `"Figure"`, ...) to a dict of per-attribute values. -/
abbrev StyleDict := List (String × AttrDict)

/-- First-match association-list lookup (Python `d[k]`, as an `Option`). -/
def alookup {β : Type} : List (String × β) → String → Option β
  | [], _ => none
  | kv :: d, key => if kv.1 = key then some kv.2 else alookup d key

/-- `self.default_params[t][k]`, as an `Option` (`none` models `KeyError`). -/
def dpGet (dp : StyleDict) (t k : String) : Option PyVal :=
  match alookup dp t with
  | none => none
  | some d => alookup d k

/-- `element.__dict__[k] = v`.  Updates the entry in place when the key is
present; otherwise appends a new entry (Python dicts keep insertion order)
and reports in the Boolean that the dict grew, which makes any live
`.items()` iterator raise `RuntimeError` at its next step. -/
def setKey (d : AttrDict) (k : String) (v : PyVal) : AttrDict × Bool :=
  if (alookup d k).isSome then
    (d.map (fun kv => if kv.1 = k then (k, v) else kv), false)
  else
    (d ++ [(k, v)], true)

/-- A Python exception escaping `_fill_in_missing_params`. -/
inductive PyErr where
  | keyError
  | runtimeError
deriving DecidableEq, Repr

/-- The state threaded through `_fill_in_missing_params`: the style
dictionary `self.default_params`, the element's attribute dict
`element.__dict__`, and whether the attribute dict has grown since the
`.items()` iterator was created. -/
structure FillState where
  dp : StyleDict
  attrs : AttrDict
  grew : Bool
deriving DecidableEq, Repr

/-- The body of the `for property, value in vars(element).items():` loop of
`SubFigure._fill_in_missing_params` (multifigure.py lines 218-237), for one
property `k` of an element of class `t`.  The value is read from the live
dict; reads of missing style keys are `KeyError`s; each assignment is a
`setKey`. -/
def fillStep (t k : String) (s : FillState) : FillState × Option PyErr :=
  match alookup s.attrs k with
  | none => (s, none)
  | some v =>
    if v = PyVal.str "default" then
      match dpGet s.dp t k with
      | none => (s, some PyErr.keyError)
      | some dv =>
        if dv = PyVal.str "same as curve" then
          match dpGet s.dp t "color" with
          | none => (s, some PyErr.keyError)
          | some c =>
            let p1 := setKey s.attrs "errorbars_color" c
            let s1 : FillState := { s with attrs := p1.1, grew := s.grew || p1.2 }
            match dpGet s1.dp t "line_width" with
            | none => (s1, some PyErr.keyError)
            | some lw =>
              let p2 := setKey s1.attrs "errorbars_line_width" lw
              let p3 := setKey p2.1 "cap_thickness" lw
              ({ s1 with attrs := p3.1, grew := s1.grew || p2.2 || p3.2 }, none)
        else if dv = PyVal.str "same as scatter" then
          match dpGet s.dp t "face_color" with
          | none => (s, some PyErr.keyError)
          | some fc =>
            let p1 := setKey s.attrs "errorbars_color" fc
            ({ s with attrs := p1.1, grew := s.grew || p1.2 }, none)
        else
          let p1 := setKey s.attrs k dv
          ({ s with attrs := p1.1, grew := s.grew || p1.2 }, none)
    else (s, none)

/-- The whole `for` loop of `SubFigure._fill_in_missing_params`, iterating
over the element's original key sequence.  Before yielding each key — and
once more at the final, exhausted step — the dict iterator checks whether
the dict grew and raises `RuntimeError` if it did. -/
def fillLoop (t : String) : List String → FillState → FillState × Option PyErr
  | [], s => if s.grew then (s, some PyErr.runtimeError) else (s, none)
  | k :: ks, s =>
    if s.grew then (s, some PyErr.runtimeError)
    else
      match fillStep t k s with
      | (s', some e) => (s', some e)
      | (s', none) => fillLoop t ks s'

/-- The label state of a plottable element.  `absent` models an element with
no `label`/`_label` attribute at all (`Heatmap`, `VectorField` and `Contour`
in data_plotting_2d.py are plain dataclasses without one), so that reading
it raises `AttributeError`; `pyNone` models an attribute equal to `None`;
`lbl s` a string label.  The distinction matters: in `add_element` both
`absent` and `pyNone` skip the label append, but in `_prepare_SubFigure`
the `except AttributeError: continue` taken for `absent` also skips the
`z_order += 2` step. -/
inductive PyLabel where
  | absent
  | pyNone
  | lbl (s : String)
deriving DecidableEq, Repr

/-- A plottable element as `_fill_in_missing_params` and
`_prepare_SubFigure` see it: its class name (`type(element).__name__`), its
attribute dict, its `label`/`_label` state, and the matplotlib handle
`_handle` its `_plot_element` produces, modelled as an opaque identifier
(the source only reads `_handle` for elements whose `_label` is a string,
which do set it while plotting). -/
structure Elem where
  typeName : String
  attrs : AttrDict
  label : PyLabel
  handle : Nat
deriving DecidableEq, Repr

/-- The z-order passed to the next element's `_plot_element`
(multifigure.py lines 173-182): `z_order += 2` runs after each element,
except that the `continue` taken when reading `element._label` raises
`AttributeError` skips it, leaving the next element at the same z-order. -/
def nextZOrder (e : Elem) (z : Nat) : Nat :=
  match e.label with
  | PyLabel.absent => z
  | _ => z + 2

/-- `SubFigure._fill_in_missing_params(element)` (multifigure.py lines
213-237): resolves every still-`"default"` attribute of the element against
`self.default_params`. -/
def fillInMissingParamsSub (dp : StyleDict) (e : Elem) : FillState × Option PyErr :=
  fillLoop e.typeName (e.attrs.map Prod.fst) { dp := dp, attrs := e.attrs, grew := false }

/-- The loop body of `MultiFigure._fill_in_missing_params` (multifigure.py
lines 498-522), translated separately from its own (duplicated) source
text. -/
def fillStepM (t k : String) (s : FillState) : FillState × Option PyErr :=
  match alookup s.attrs k with
  | none => (s, none)
  | some v =>
    if v = PyVal.str "default" then
      match dpGet s.dp t k with
      | none => (s, some PyErr.keyError)
      | some dv =>
        if dv = PyVal.str "same as curve" then
          match dpGet s.dp t "color" with
          | none => (s, some PyErr.keyError)
          | some c =>
            let p1 := setKey s.attrs "errorbars_color" c
            let s1 : FillState := { s with attrs := p1.1, grew := s.grew || p1.2 }
            match dpGet s1.dp t "line_width" with
            | none => (s1, some PyErr.keyError)
            | some lw =>
              let p2 := setKey s1.attrs "errorbars_line_width" lw
              let p3 := setKey p2.1 "cap_thickness" lw
              ({ s1 with attrs := p3.1, grew := s1.grew || p2.2 || p3.2 }, none)
        else if dv = PyVal.str "same as scatter" then
          match dpGet s.dp t "face_color" with
          | none => (s, some PyErr.keyError)
          | some fc =>
            let p1 := setKey s.attrs "errorbars_color" fc
            ({ s with attrs := p1.1, grew := s.grew || p1.2 }, none)
        else
          let p1 := setKey s.attrs k dv
          ({ s with attrs := p1.1, grew := s.grew || p1.2 }, none)
    else (s, none)

/-- The `for` loop of `MultiFigure._fill_in_missing_params`. -/
def fillLoopM (t : String) : List String → FillState → FillState × Option PyErr
  | [], s => if s.grew then (s, some PyErr.runtimeError) else (s, none)
  | k :: ks, s =>
    if s.grew then (s, some PyErr.runtimeError)
    else
      match fillStepM t k s with
      | (s', some e) => (s', some e)
      | (s', none) => fillLoopM t ks s'

/-- `MultiFigure._fill_in_missing_params(element)` (multifigure.py lines
498-522). -/
def fillInMissingParamsMulti (dp : StyleDict) (e : Elem) : FillState × Option PyErr :=
  fillLoopM e.typeName (e.attrs.map Prod.fst) { dp := dp, attrs := e.attrs, grew := false }

/-- A recorded call into the matplotlib backend. `plotElement h z` records
`element._plot_element(self._axes, z_order)` for the element whose handle is
`h`; the two legend events record `Axes.legend(...)` and `Figure.legend(...)`
with their `labels`, `handles`, whether the composite
`handler_map={Polygon: ..., LineCollection: ..., VerticalLineCollection: ...}`
was passed, and the `frameon` flag. -/
inductive BackendCall where
  | plotElement (handle : Nat) (zOrder : Nat)
  | axesLegend (labels : List String) (handles : List Nat)
      (handlerMap : Bool) (frameon : Bool)
  | figLegend (labels : List String) (handles : List Nat)
      (handlerMap : Bool) (frameon : Bool)
deriving DecidableEq, Repr

/-- A `SubFigure` (multifigure.py lines 21-121) after `__init__`: the style
flags are stored already resolved (Python stores the raw style value, used
only in Boolean contexts; truthiness is applied at construction here),
`default_params` is the dictionary produced by `FileLoader(figure_style).load()`,
and `elements` / `labels` / `handles` are `self._elements`, `self._labels`,
`self._handles`. -/
structure SubFigureS where
  placement : Int × Int × Int × Int
  x_axis_name : String
  y_axis_name : String
  x_lim : Option (Rat × Rat)
  y_lim : Option (Rat × Rat)
  default_params : StyleDict
  log_scale_x : Bool
  log_scale_y : Bool
  legend_is_boxed : Bool
  ticks_are_in : Bool
  grid_is_set : Bool
  elements : List Elem
  labels : List String
  handles : List Nat
deriving DecidableEq, Repr

/-- `SubFigure.add_element` (multifigure.py lines 122-137) for one element:
appends the element and, when it has a non-`None` label, appends the
label. -/
def addElement (sf : SubFigureS) (e : Elem) : SubFigureS :=
  { sf with
    elements := sf.elements ++ [e]
    labels := sf.labels ++ (match e.label with | PyLabel.lbl l => [l] | _ => []) }

/-- An exception escaping a prepare method: the library's own
`GraphingException` with its message, or a propagated Python exception from
`_fill_in_missing_params`. -/
inductive GErr where
  | graphing (msg : String)
  | py (e : PyErr)
deriving DecidableEq, Repr

/-- The `for element in self._elements:` loop of `_prepare_SubFigure`
(multifigure.py lines 172-182): resolves each element's defaults, plots it
at the current z-order (starting at 0 and stepped by `nextZOrder`), and
collects `element._handle` for each element whose `_label` is a string.
Returns the updated elements, the collected handles and the trace of plot
calls; a `_fill_in_missing_params` exception aborts the loop. -/
def plotLoop (dp : StyleDict) : Nat → List Elem →
    Except PyErr (List Elem × List Nat × List BackendCall)
  | _, [] => Except.ok ([], [], [])
  | z, e :: es =>
    match fillInMissingParamsSub dp e with
    | (_, some pe) => Except.error pe
    | (fs, none) =>
      match plotLoop dp (nextZOrder e z) es with
      | Except.error pe => Except.error pe
      | Except.ok (es', hs, tr) =>
        Except.ok ({ e with attrs := fs.attrs } :: es',
          (match e.label with | PyLabel.lbl _ => [e.handle] | _ => []) ++ hs,
          BackendCall.plotElement e.handle z :: tr)

/-- `element._handle` for every element of the list whose `_label` is a
string (present and not `None`), in order. -/
def handlesOf (es : List Elem) : List Nat :=
  es.filterMap (fun e => match e.label with | PyLabel.lbl _ => some e.handle | _ => none)

/-- `SubFigure._prepare_SubFigure(grid, legend)` (multifigure.py lines
139-211): suppresses the legend when `self._labels` is empty, raises
`GraphingException("No curves to be plotted!")` when no element was added,
otherwise plots every element, optionally draws the per-axes legend with the
composite handler map, and returns `(self._labels, self._handles)` along
with the updated state and the recorded backend trace. -/
def prepareSubFigure (sf : SubFigureS) (legend : Bool) :
    Except GErr (SubFigureS × List String × List Nat × List BackendCall) :=
  let legend2 := if sf.labels = [] then false else legend
  if sf.elements = [] then
    Except.error (GErr.graphing "No curves to be plotted!")
  else
    match plotLoop sf.default_params 0 sf.elements with
    | Except.error pe => Except.error (GErr.py pe)
    | Except.ok (es2, hs, tr) =>
      let allH := sf.handles ++ hs
      let tr2 := if legend2 then
          tr ++ [BackendCall.axesLegend sf.labels allH true sf.legend_is_boxed]
        else tr
      Except.ok ({ sf with elements := es2, handles := allH }, sf.labels, allH, tr2)

/-- A `MultiFigure` (multifigure.py lines 283-355) after `__init__`. -/
structure MultiFigureS where
  num_rows : Int
  num_cols : Int
  title : Option String
  figure_style : String
  default_params : StyleDict
  size : Rat × Rat
  legend_is_boxed : Bool
  subFigures : List SubFigureS
deriving DecidableEq, Repr

/-- Python truthiness of a `PyVal`, used where the source tests a stored
style value in a Boolean context. -/
def pyTruthy : PyVal → Bool
  | PyVal.str s => s ≠ ""
  | PyVal.num q => q ≠ 0
  | PyVal.boolean b => b
  | PyVal.pyNone => false

/-- Resolution of one `bool | Literal["default"]` constructor option of
`SubFigure.__init__` (multifigure.py lines 88-112): an explicitly passed
value (`some b`) is kept, `"default"` (`none`) is read from
`self.default_params["Figure"][key]` (a missing key is a `KeyError`). -/
def resolveFlag (dp : StyleDict) (o : Option Bool) (key : String) :
    Except PyErr Bool :=
  match o with
  | some b => Except.ok b
  | none =>
    match dpGet dp "Figure" key with
    | some v => Except.ok (pyTruthy v)
    | none => Except.error PyErr.keyError

/-- `SubFigure.__init__` (multifigure.py lines 32-120).  `FileLoader
(figure_style).load()` is deterministic per style name and is modelled by
passing the already-loaded dictionary `dp`.  The five style flags are
resolved in source order (`legend_is_boxed`, `ticks_are_in`, `log_scale_x`,
`log_scale_y`, `show_grid`); the resolved `show_grid` value is computed by
the source but never stored, so only its possible `KeyError` is kept. -/
def mkSubFigure (dp : StyleDict) (placement : Int × Int × Int × Int)
    (x_label y_label : String) (x_lim y_lim : Option (Rat × Rat))
    (log_scale_x log_scale_y show_grid legend_is_boxed ticks_are_in : Option Bool) :
    Except PyErr SubFigureS := do
  let lb ← resolveFlag dp legend_is_boxed "boxed_legend"
  let ti ← resolveFlag dp ticks_are_in "ticks_are_in"
  let lx ← resolveFlag dp log_scale_x "log_scale_x"
  let ly ← resolveFlag dp log_scale_y "log_scale_y"
  let _ ← resolveFlag dp show_grid "show_grid"
  Except.ok
    { placement := placement
      x_axis_name := x_label
      y_axis_name := y_label
      x_lim := x_lim
      y_lim := y_lim
      default_params := dp
      log_scale_x := lx
      log_scale_y := ly
      legend_is_boxed := lb
      ticks_are_in := ti
      grid_is_set := false
      elements := []
      labels := []
      handles := [] }

/-- `MultiFigure.add_SubFigure` (multifigure.py lines 357-422).  The source
compares `placement[0]` and `placement[1]` against `self.size[0]` and
`self.size[1]` (the figure's physical size), then rejects negative values;
on success it constructs the `SubFigure` with the figure's style and appends
it to `self._SubFigures`.  Python's exact int-float comparison is the
comparison of the cast integer with the rational. -/
def addSubFigure (mf : MultiFigureS) (placement : Int × Int × Int × Int)
    (x_label y_label : String) (x_lim y_lim : Option (Rat × Rat))
    (log_scale_x log_scale_y show_grid legend_is_boxed ticks_are_in : Option Bool) :
    Except GErr (MultiFigureS × SubFigureS) :=
  if (placement.1 : Rat) ≥ mf.size.1 ∨ (placement.2.1 : Rat) ≥ mf.size.2 then
    Except.error (GErr.graphing
      "The placement value must be inside the size of the MultiFigure.")
  else if placement.1 < 0 ∨ placement.2.1 < 0 then
    Except.error (GErr.graphing "The placement value cannot be negative.")
  else
    match mkSubFigure mf.default_params placement x_label y_label x_lim y_lim
        log_scale_x log_scale_y show_grid legend_is_boxed ticks_are_in with
    | Except.error pe => Except.error (GErr.py pe)
    | Except.ok sub =>
      Except.ok ({ mf with subFigures := mf.subFigures ++ [sub] }, sub)

/-- The `for SubFigure in self._SubFigures:` loop of
`MultiFigure._prepare_MultiFigure` (multifigure.py lines 431-437):
prepares each `SubFigure` and concatenates the returned labels and
handles in order. -/
def prepLoop (legend : Bool) : List SubFigureS →
    Except GErr (List SubFigureS × List String × List Nat × List BackendCall)
  | [] => Except.ok ([], [], [], [])
  | sf :: rest =>
    match prepareSubFigure sf legend with
    | Except.error e => Except.error e
    | Except.ok (sf2, ls, hs, tr) =>
      match prepLoop legend rest with
      | Except.error e => Except.error e
      | Except.ok (rest2, ls2, hs2, tr2) =>
        Except.ok (sf2 :: rest2, ls ++ ls2, hs ++ hs2, tr ++ tr2)

/-- `MultiFigure._prepare_MultiFigure(legend)` (multifigure.py lines
424-464): every `SubFigure` is prepared with
`SubFigures_legend = True if not legend else False`; when `legend` is true
the figure-level legend is drawn from the concatenated labels and handles
with the composite handler map and `frameon=self.legend_is_boxed`. -/
def prepareMultiFigure (mf : MultiFigureS) (legend : Bool) :
    Except GErr (MultiFigureS × List BackendCall) :=
  let subLegend := !legend
  match prepLoop subLegend mf.subFigures with
  | Except.error e => Except.error e
  | Except.ok (subs2, ls, hs, tr) =>
    let tr2 := if legend then
        tr ++ [BackendCall.figLegend ls hs true mf.legend_is_boxed]
      else tr
    Except.ok ({ mf with subFigures := subs2 }, tr2)

/-- The plot calls `_prepare_SubFigure` is expected to issue for a list of
elements, starting at z-order `z` and stepping by `nextZOrder`: by 2 after
an element with a `label`/`_label` attribute, and by 0 after one without
(whose `AttributeError` `continue` skips the increment). -/
def expectedPlots : Nat → List Elem → List BackendCall
  | _, [] => []
  | z, e :: es =>
    BackendCall.plotElement e.handle z :: expectedPlots (nextZOrder e z) es

/-- Selects the `plotElement` events of a trace. -/
def plotCalls (tr : List BackendCall) : List BackendCall :=
  tr.filter (fun c => match c with | BackendCall.plotElement _ _ => true | _ => false)

/-- Selects the `axesLegend` events of a trace. -/
def axesLegends (tr : List BackendCall) : List BackendCall :=
  tr.filter (fun c => match c with | BackendCall.axesLegend _ _ _ _ => true | _ => false)

/-- Selects the `figLegend` events of a trace. -/
def figLegends (tr : List BackendCall) : List BackendCall :=
  tr.filter (fun c => match c with | BackendCall.figLegend _ _ _ _ => true | _ => false)

/-- The `image` argument of `Heatmap.__init__` (data_plotting_2d.py line
45): either a file path or array data (numeric arrays are modelled as
nested rational lists). -/
inductive HImage where
  | file (path : String)
  | arr (a : List (List Rat))
deriving DecidableEq, Repr

/-- The `image` attribute after `Heatmap.__post_init__`: `loaded p` stands
for the array returned by `matplotlib.image.imread(p)` (kept symbolic), and
`arrData a` for `np.array(a)`. -/
inductive ProcImage where
  | loaded (path : String)
  | arrData (a : List (List Rat))
deriving DecidableEq, Repr

/-- The constructor arguments of the `Heatmap` dataclass
(data_plotting_2d.py lines 45-53). -/
structure HeatmapIn where
  image : HImage
  x_axis_range : Option (Rat × Rat)
  y_axis_range : Option (Rat × Rat)
  color_map : PyVal
  show_color_bar : Bool
  alpha_value : Rat
  aspect_ratio : PyVal
  origin_position : PyVal
  interpolation : String
deriving DecidableEq, Repr

/-- A `Heatmap` after `__post_init__`.  `xyRange = none` models the
`_xy_range` attribute being absent (the source only assigns it when both
axis ranges are given); when present it is the tuple concatenation
`x_axis_range + y_axis_range`. -/
structure Heatmap where
  image : ProcImage
  x_axis_range : Option (Rat × Rat)
  y_axis_range : Option (Rat × Rat)
  color_map : PyVal
  show_color_bar : Bool
  alpha_value : Rat
  aspect_ratio : PyVal
  origin_position : PyVal
  interpolation : String
  xyRange : Option (Rat × Rat × Rat × Rat)
deriving DecidableEq, Repr

/-- `Heatmap.__post_init__` (data_plotting_2d.py lines 55-62): a string
image is loaded with `imread` and `show_color_bar` is forced to `False`;
array input is converted with `np.array`; `_xy_range` is assigned exactly
when both axis ranges are given. -/
def heatmapPostInit (h : HeatmapIn) : Heatmap :=
  let img : ProcImage × Bool :=
    match h.image with
    | HImage.file p => (ProcImage.loaded p, false)
    | HImage.arr a => (ProcImage.arrData a, h.show_color_bar)
  { image := img.1
    x_axis_range := h.x_axis_range
    y_axis_range := h.y_axis_range
    color_map := h.color_map
    show_color_bar := img.2
    alpha_value := h.alpha_value
    aspect_ratio := h.aspect_ratio
    origin_position := h.origin_position
    interpolation := h.interpolation
    xyRange :=
      match h.x_axis_range, h.y_axis_range with
      | some (a, b), some (c, d) => some (a, b, c, d)
      | _, _ => none }

/-- A `VectorField` (data_plotting_2d.py lines 163-214) after
`__post_init__`; data arrays are modelled as rational lists and the style
attributes keep their raw Python values. -/
structure VectorFieldS where
  x_data : List Rat
  y_data : List Rat
  u_data : List Rat
  v_data : List Rat
  arrow_length_multiplier : PyVal
  arrow_width : PyVal
  arrow_head_width : PyVal
  arrow_head_length : PyVal
  arrow_head_axis_length : PyVal
  angle_in_data_coords : Bool
  color : PyVal
deriving DecidableEq, Repr

/-- The arguments of the single `axes.quiver(...)` call issued by
`VectorField._plot_element` (data_plotting_2d.py lines 297-310). -/
structure QuiverCall where
  x : List Rat
  y : List Rat
  u : List Rat
  v : List Rat
  color : PyVal
  zorder : Nat
  angles : String
  width : PyVal
  headwidth : PyVal
  headlength : PyVal
  headaxislength : PyVal
deriving DecidableEq, Repr

/-- `VectorField._plot_element(axes, z_order)` (data_plotting_2d.py lines
289-310) as the backend call it issues.  The source line
`scale=self.arrow_length_multiplier` is commented out, so no `scale`
argument is passed. -/
def vectorFieldPlotElement (vf : VectorFieldS) (z_order : Nat) : QuiverCall :=
  let angle := if vf.angle_in_data_coords then "xy" else "uv"
  { x := vf.x_data
    y := vf.y_data
    u := vf.u_data
    v := vf.v_data
    color := vf.color
    zorder := z_order
    angles := angle
    width := vf.arrow_width
    headwidth := vf.arrow_head_width
    headlength := vf.arrow_head_length
    headaxislength := vf.arrow_head_axis_length }

/-- An operand of a `MathematicalObject` operator: `Self | float` (Python
numbers modelled as rationals). -/
abbrev Operand (M : Type) := M ⊕ Rat

/-- The binary operators a subclass of `MathematicalObject` (tools.py lines
7-49) must implement: `__add__`, `__sub__`, `__mul__`, `__truediv__`,
`__pow__`. -/
structure MathematicalObject (M : Type) where
  add : M → Operand M → M
  sub : M → Operand M → M
  mul : M → Operand M → M
  div : M → Operand M → M
  pow : M → Operand M → M

/-- `MathematicalObject.__radd__` (tools.py lines 13-14). -/
def MathematicalObject.radd {M : Type} (O : MathematicalObject M) (x : M)
    (other : Operand M) : M :=
  O.add x other

/-- `MathematicalObject.__iadd__` (tools.py lines 16-18): rebinds the local
`self` and returns it; the receiver is not mutated. -/
def MathematicalObject.iadd {M : Type} (O : MathematicalObject M) (x : M)
    (other : Operand M) : M :=
  O.add x other

/-- `MathematicalObject.__rsub__` (tools.py lines 20-21):
`self.__sub__(other) * (-1)`. -/
def MathematicalObject.rsub {M : Type} (O : MathematicalObject M) (x : M)
    (other : Operand M) : M :=
  O.mul (O.sub x other) (Sum.inr (-1))

/-- `MathematicalObject.__isub__` (tools.py lines 23-25). -/
def MathematicalObject.isub {M : Type} (O : MathematicalObject M) (x : M)
    (other : Operand M) : M :=
  O.sub x other

/-- `MathematicalObject.__rmul__` (tools.py lines 27-28). -/
def MathematicalObject.rmul {M : Type} (O : MathematicalObject M) (x : M)
    (other : Operand M) : M :=
  O.mul x other

/-- `MathematicalObject.__imul__` (tools.py lines 30-32). -/
def MathematicalObject.imul {M : Type} (O : MathematicalObject M) (x : M)
    (other : Operand M) : M :=
  O.mul x other

/-- `MathematicalObject.__rtruediv__` (tools.py lines 34-38):
`self.__truediv__(other) ** (-1)` (the `except ZeroDivisionError` re-raise
does not change the returned value). -/
def MathematicalObject.rtruediv {M : Type} (O : MathematicalObject M) (x : M)
    (other : Operand M) : M :=
  O.pow (O.div x other) (Sum.inr (-1))

/-- `MathematicalObject.__itruediv__` (tools.py lines 40-42). -/
def MathematicalObject.itruediv {M : Type} (O : MathematicalObject M) (x : M)
    (other : Operand M) : M :=
  O.div x other

/-- `MathematicalObject.__ipow__` (tools.py lines 47-49). -/
def MathematicalObject.ipow {M : Type} (O : MathematicalObject M) (x : M)
    (other : Operand M) : M :=
  O.pow x other

/-- The numeric value of an operand over `Rat`. -/
def interpRat : Operand Rat → Rat
  | Sum.inl q => q
  | Sum.inr q => q

/-- A stand-in subclass over `Rat` whose operators are plain rational
arithmetic (`__pow__` is only ever applied to the exponent `-1`, where it
is inversion). -/
def ratMathOps : MathematicalObject Rat :=
  { add := fun x o => x + interpRat o
    sub := fun x o => x - interpRat o
    mul := fun x o => x * interpRat o
    div := fun x o => x / interpRat o
    pow := fun x o => if interpRat o = -1 then x⁻¹ else 1 }


/-- Concrete element for the C1 counterexample: a `Curve` whose
`errorbars_color` was explicitly set and whose `cap_thickness` is still the
`"default"` sentinel. -/
def elemC1 : Elem :=
  { typeName := "Curve"
    attrs := [("errorbars_color", PyVal.str "red"), ("cap_thickness", PyVal.str "default")]
    label := PyLabel.pyNone
    handle := 0 }

/-- Concrete style dictionary for the C1 counterexample: it has an entry for
the element type and for each attribute of `elemC1`, and maps
`cap_thickness` to `"same as scatter"`. -/
def dpC1 : StyleDict :=
  [("Curve",
    [("errorbars_color", PyVal.str "black"),
     ("cap_thickness", PyVal.str "same as scatter"),
     ("face_color", PyVal.str "blue")])]

/-- Concrete element for the C1 witness. -/
def elemC1w : Elem :=
  { typeName := "Curve", attrs := [("color", PyVal.str "default")], label := PyLabel.pyNone, handle := 0 }

/-- Concrete style dictionary for the C1 witness. -/
def dpC1w : StyleDict := [("Curve", [("color", PyVal.str "red")])]

/-- Concrete element for the C3 counterexample: `cap_thickness` was
explicitly set to `5` while the errorbar attributes are unresolved. -/
def elemC3 : Elem :=
  { typeName := "Curve"
    attrs := [("errorbars_color", PyVal.str "default"),
              ("errorbars_line_width", PyVal.str "default"),
              ("cap_thickness", PyVal.num 5)]
    label := PyLabel.pyNone
    handle := 0 }

/-- Concrete style dictionary for the C3 counterexample: `errorbars_color`
resolves to `"same as curve"`. -/
def dpC3 : StyleDict :=
  [("Curve",
    [("errorbars_color", PyVal.str "same as curve"),
     ("color", PyVal.str "blue"),
     ("line_width", PyVal.num 2)])]

/-- Concrete element for the C3 witness. -/
def elemC3w : Elem :=
  { typeName := "Curve", attrs := [("line_width", PyVal.num 3)], label := PyLabel.pyNone, handle := 0 }

/-- A 10 x 10 `MultiFigure` whose physical size is 5 x 5 (inches), used to
exhibit the `add_SubFigure` bound check against `size`. -/
def mfA : MultiFigureS :=
  { num_rows := 10
    num_cols := 10
    title := none
    figure_style := "plain"
    default_params := []
    size := (5, 5)
    legend_is_boxed := false
    subFigures := [] }

/-- A 2 x 2 `MultiFigure` with the same 5 x 5 physical size. -/
def mfB : MultiFigureS := { mfA with num_rows := 2, num_cols := 2 }

/-- A labelled element used by the prepare witnesses. -/
def eW : Elem := { typeName := "Curve", attrs := [], label := PyLabel.lbl "a", handle := 7 }

/-- A `SubFigure` holding `eW`, used by the prepare witnesses. -/
def sfW : SubFigureS :=
  { placement := (0, 0, 1, 1)
    x_axis_name := "x axis"
    y_axis_name := "y axis"
    x_lim := none
    y_lim := none
    default_params := []
    log_scale_x := false
    log_scale_y := false
    legend_is_boxed := true
    ticks_are_in := false
    grid_is_set := false
    elements := [eW]
    labels := ["a"]
    handles := [] }

/-- `sfW` after preparation: its handle list has been filled in. -/
def sfW2 : SubFigureS := { sfW with handles := [7] }

/-- A `MultiFigure` holding `sfW`, used by the C4 witness. -/
def mfW : MultiFigureS :=
  { num_rows := 1
    num_cols := 1
    title := none
    figure_style := "plain"
    default_params := []
    size := (5, 5)
    legend_is_boxed := false
    subFigures := [sfW] }

/-- `mfW` after preparation. -/
def mfW2 : MultiFigureS := { mfW with subFigures := [sfW2] }

/-- The backend trace of `prepareMultiFigure mfW true`. -/
def trtW : List BackendCall :=
  [BackendCall.plotElement 7 0, BackendCall.figLegend ["a"] [7] true false]

/-- The backend trace of `prepareMultiFigure mfW false` (and of
`prepareSubFigure sfW true`). -/
def trfW : List BackendCall :=
  [BackendCall.plotElement 7 0, BackendCall.axesLegend ["a"] [7] true true]

/-- A label-less element (like a `Heatmap`), used by the C6 witness. -/
def eH : Elem := { typeName := "Heatmap", attrs := [], label := PyLabel.absent, handle := 3 }

/-- A `SubFigure` holding a label-less element followed by a labelled one,
used by the C6 witness: the `AttributeError` `continue` taken for the first
element skips `z_order += 2`, so both elements are plotted at z-order 0. -/
def sfX : SubFigureS := { sfW with elements := [eH, eW] }

/-- `sfX` after preparation: its handle list has been filled in. -/
def sfX2 : SubFigureS := { sfX with handles := [7] }

/-- The backend trace of `prepareSubFigure sfX true`: both elements plotted
at z-order 0, then the per-axes legend. -/
def trX : List BackendCall :=
  [BackendCall.plotElement 3 0, BackendCall.plotElement 7 0,
   BackendCall.axesLegend ["a"] [7] true true]

/-! ### Lemmas about dictionary primitives -/

theorem alookup_append {β : Type} (d e : List (String × β)) (k : String) :
    alookup (d ++ e) k =
      match alookup d k with
      | some v => some v
      | none => alookup e k := by
  induction d with
  | nil => rfl
  | cons kv d ih =>
    by_cases h : kv.1 = k
    · simp [alookup, h]
    · simp [alookup, h, ih]

theorem alookup_update (d : AttrDict) (k : String) (v : PyVal) :
    alookup (d.map (fun kv => if kv.1 = k then (k, v) else kv)) k
      = if (alookup d k).isSome then some v else none := by
  induction d with
  | nil => rfl
  | cons kv d ih =>
    obtain ⟨k0, v0⟩ := kv
    simp only [List.map_cons]
    by_cases h : k0 = k
    · rw [if_pos h]
      simp [alookup, h]
    · rw [if_neg h]
      simp [alookup, h, ih]

theorem alookup_update_ne (d : AttrDict) (k k' : String) (v : PyVal)
    (h : k' ≠ k) :
    alookup (d.map (fun kv => if kv.1 = k then (k, v) else kv)) k'
      = alookup d k' := by
  induction d with
  | nil => rfl
  | cons kv d ih =>
    obtain ⟨k0, v0⟩ := kv
    simp only [List.map_cons]
    by_cases hk : k0 = k
    · rw [if_pos hk]
      have hne : ¬k = k' := fun he => h he.symm
      simp [alookup, hk, hne, ih]
    · rw [if_neg hk]
      simp [alookup, ih]

theorem setKey_lookup_self (d : AttrDict) (k : String) (v : PyVal) :
    alookup (setKey d k v).1 k = some v := by
  unfold setKey
  split
  · next h => simp [alookup_update, h]
  · next h =>
    rw [alookup_append]
    cases hd : alookup d k with
    | some w => rw [hd] at h; simp at h
    | none => simp [alookup]

theorem setKey_lookup_ne (d : AttrDict) (k k' : String) (v : PyVal)
    (h : k' ≠ k) :
    alookup (setKey d k v).1 k' = alookup d k' := by
  unfold setKey
  split
  · exact alookup_update_ne d k k' v h
  · rw [alookup_append]
    have : k ≠ k' := fun he => h he.symm
    cases hd : alookup d k' with
    | some w => rfl
    | none => simp [alookup, this]

theorem alookup_mem_keys {β : Type} (d : List (String × β)) (k : String)
    (v : β) (h : alookup d k = some v) : k ∈ d.map Prod.fst := by
  induction d with
  | nil => simp [alookup] at h
  | cons kv d ih =>
    by_cases hk : kv.1 = k
    · simp [hk.symm]
    · simp [alookup, hk] at h
      simp [ih h]

/-! ### Lemmas about `_fill_in_missing_params` -/

theorem fillStepM_eq (t k : String) (s : FillState) :
    fillStepM t k s = fillStep t k s := rfl

theorem fillLoopM_eq (t : String) (ks : List String) :
    ∀ s, fillLoopM t ks s = fillLoop t ks s := by
  induction ks with
  | nil => intro s; rfl
  | cons k ks ih =>
    intro s
    rw [fillLoopM, fillLoop, fillStepM_eq]
    by_cases hg : s.grew = true
    · simp [hg]
    · simp only [hg, if_false, Bool.false_eq_true]
      cases hstep : fillStep t k s with
      | mk s' e =>
        cases e with
        | none => simp only [ih s']
        | some pe => rfl

theorem fillStep_dp (t k : String) (s : FillState) :
    (fillStep t k s).1.dp = s.dp := by
  unfold fillStep
  dsimp only
  repeat' split
  all_goals rfl

theorem fillLoop_dp (t : String) (ks : List String) :
    ∀ s, (fillLoop t ks s).1.dp = s.dp := by
  induction ks with
  | nil =>
    intro s
    rw [fillLoop]
    split <;> rfl
  | cons k ks ih =>
    intro s
    rw [fillLoop]
    by_cases hg : s.grew = true
    · simp [hg]
    · simp only [hg, if_false, Bool.false_eq_true]
      cases hstep : fillStep t k s with
      | mk s' e =>
        have hdp := fillStep_dp t k s
        rw [hstep] at hdp
        cases e with
        | none => exact (ih s').trans hdp
        | some pe => exact hdp

theorem fillStep_skip (t k : String) (s : FillState) (v : PyVal)
    (hv : alookup s.attrs k = some v) (hd : v ≠ PyVal.str "default") :
    fillStep t k s = (s, none) := by
  simp [fillStep, hv, hd]

theorem fillStep_preserve (t k k' : String) (s : FillState)
    (h1 : k' ≠ "errorbars_color") (h2 : k' ≠ "errorbars_line_width")
    (h3 : k' ≠ "cap_thickness") (h4 : k' ≠ k) :
    alookup (fillStep t k s).1.attrs k' = alookup s.attrs k' := by
  unfold fillStep
  dsimp only
  repeat' split
  all_goals simp [setKey_lookup_ne, h1, h2, h3, h4]

theorem fillLoop_preserve (t : String) (ks : List String) :
    ∀ s k' v, k' ≠ "errorbars_color" → k' ≠ "errorbars_line_width" →
      k' ≠ "cap_thickness" → alookup s.attrs k' = some v →
      v ≠ PyVal.str "default" →
      alookup (fillLoop t ks s).1.attrs k' = some v := by
  induction ks with
  | nil =>
    intro s k' v _ _ _ hv _
    rw [fillLoop]
    split <;> exact hv
  | cons k ks ih =>
    intro s k' v h1 h2 h3 hv hd
    rw [fillLoop]
    by_cases hg : s.grew = true
    · simp [hg, hv]
    · simp only [hg, if_false, Bool.false_eq_true]
      by_cases hk : k' = k
      · rw [fillStep_skip t k s v (hk ▸ hv) hd]
        exact ih s k' v h1 h2 h3 hv hd
      · cases hstep : fillStep t k s with
        | mk s' e =>
          have hpres := fillStep_preserve t k k' s h1 h2 h3 hk
          rw [hstep] at hpres
          cases e with
          | none => exact ih s' k' v h1 h2 h3 (hpres.trans hv) hd
          | some pe => exact hpres.trans hv

theorem fillStep_plain (t k : String) (s : FillState) (dv : PyVal)
    (hv : alookup s.attrs k = some (PyVal.str "default"))
    (hdp : dpGet s.dp t k = some dv)
    (hs1 : dv ≠ PyVal.str "same as curve")
    (hs2 : dv ≠ PyVal.str "same as scatter") :
    fillStep t k s =
      ({ s with attrs := (setKey s.attrs k dv).1, grew := s.grew || (setKey s.attrs k dv).2 }, none) := by
  simp [fillStep, hv, hdp, hs1, hs2]

theorem fillStep_keepdv (t k k' : String) (s : FillState) (dv : PyVal)
    (h1 : k' ≠ "errorbars_color") (h2 : k' ≠ "errorbars_line_width")
    (h3 : k' ≠ "cap_thickness")
    (hdp : dpGet s.dp t k' = some dv)
    (hs1 : dv ≠ PyVal.str "same as curve")
    (hs2 : dv ≠ PyVal.str "same as scatter")
    (hv : alookup s.attrs k' = some dv) :
    alookup (fillStep t k s).1.attrs k' = some dv := by
  by_cases hk : k' = k
  · subst hk
    by_cases hd : dv = PyVal.str "default"
    · have hv' : alookup s.attrs k' = some (PyVal.str "default") := by
        rw [hv, hd]
      rw [fillStep_plain t k' s dv hv' hdp hs1 hs2]
      exact setKey_lookup_self s.attrs k' dv
    · rw [fillStep_skip t k' s dv hv hd]
      exact hv
  · rw [fillStep_preserve t k k' s h1 h2 h3 hk]
    exact hv

theorem fillLoop_keepdv (t : String) (ks : List String) :
    ∀ s k' dv, k' ≠ "errorbars_color" → k' ≠ "errorbars_line_width" →
      k' ≠ "cap_thickness" → dpGet s.dp t k' = some dv →
      dv ≠ PyVal.str "same as curve" → dv ≠ PyVal.str "same as scatter" →
      alookup s.attrs k' = some dv →
      alookup (fillLoop t ks s).1.attrs k' = some dv := by
  induction ks with
  | nil =>
    intro s k' dv _ _ _ _ _ _ hv
    rw [fillLoop]
    split <;> exact hv
  | cons k ks ih =>
    intro s k' dv h1 h2 h3 hdp hs1 hs2 hv
    rw [fillLoop]
    by_cases hg : s.grew = true
    · simp [hg, hv]
    · simp only [hg, if_false, Bool.false_eq_true]
      cases hstep : fillStep t k s with
      | mk s' e =>
        have hkeep := fillStep_keepdv t k k' s dv h1 h2 h3 hdp hs1 hs2 hv
        have hdpeq := fillStep_dp t k s
        rw [hstep] at hkeep hdpeq
        cases e with
        | none => exact ih s' k' dv h1 h2 h3 (hdpeq.symm ▸ hdp) hs1 hs2 hkeep
        | some pe => exact hkeep

theorem fillLoop_resolves (t : String) (ks : List String) :
    ∀ s k dv, k ∈ ks → k ≠ "errorbars_color" → k ≠ "errorbars_line_width" →
      k ≠ "cap_thickness" → dpGet s.dp t k = some dv →
      dv ≠ PyVal.str "same as curve" → dv ≠ PyVal.str "same as scatter" →
      alookup s.attrs k = some (PyVal.str "default") →
      (fillLoop t ks s).2 = none →
      alookup (fillLoop t ks s).1.attrs k = some dv := by
  induction ks with
  | nil => intro s k dv hmem; exact absurd hmem (List.not_mem_nil k)
  | cons k0 ks ih =>
    intro s k dv hmem h1 h2 h3 hdp hs1 hs2 hv hok
    rw [fillLoop] at hok ⊢
    by_cases hg : s.grew = true
    · simp [hg] at hok
    · simp only [hg, if_false, Bool.false_eq_true] at hok ⊢
      by_cases hk : k0 = k
      · subst hk
        rw [fillStep_plain t k0 s dv hv hdp hs1 hs2] at hok ⊢
        dsimp only at hok ⊢
        exact fillLoop_keepdv t ks
          { s with attrs := (setKey s.attrs k0 dv).1, grew := s.grew || (setKey s.attrs k0 dv).2 }
          k0 dv h1 h2 h3 hdp hs1 hs2 (setKey_lookup_self s.attrs k0 dv)
      · have hmem' : k ∈ ks := by
          rcases List.mem_cons.mp hmem with he | hm
          · exact absurd he.symm hk
          · exact hm
        cases hstep : fillStep t k0 s with
        | mk s' e =>
          rw [hstep] at hok
          have hpres := fillStep_preserve t k0 k s h1 h2 h3 (fun he => hk he.symm)
          have hdpeq := fillStep_dp t k0 s
          rw [hstep] at hpres hdpeq
          cases e with
          | none =>
            dsimp only at hok
            exact ih s' k dv hmem' h1 h2 h3 (hdpeq.symm ▸ hdp) hs1 hs2
              (hpres.trans hv) hok
          | some pe =>
            dsimp only at hok
            exact Option.noConfusion hok

/-! ### Claims C1, C2, C3, C7 -/

/-- Claim C1 counterexample: the claim "no attribute of the element still
equals `"default"` afterwards, including when the style dictionary maps the
attribute to `"same as curve"` or `"same as scatter"`" is false.  For
`elemC1` and `dpC1` — which has an entry for the element's type and for
each of its attributes — `_fill_in_missing_params` completes without error,
yet `cap_thickness`, whose style entry is `"same as scatter"`, still holds
the sentinel `"default"` (only `errorbars_color` was overwritten). -/
theorem C1_counterexample :
    (fillInMissingParamsSub dpC1 elemC1).2 = none
    ∧ dpGet dpC1 elemC1.typeName "cap_thickness" = some (PyVal.str "same as scatter")
    ∧ dpGet dpC1 elemC1.typeName "errorbars_color" = some (PyVal.str "black")
    ∧ alookup elemC1.attrs "cap_thickness" = some (PyVal.str "default")
    ∧ alookup (fillInMissingParamsSub dpC1 elemC1).1.attrs "cap_thickness"
        = some (PyVal.str "default") :=
  ⟨rfl, rfl, rfl, rfl, rfl⟩

/-- Claim C1 (amended): after `SubFigure._fill_in_missing_params` completes
without raising, every attribute other than `errorbars_color`,
`errorbars_line_width` and `cap_thickness` whose value was the sentinel
`"default"` and whose style entry is neither `"same as curve"` nor
`"same as scatter"` holds the value taken from the style dictionary for the
element's type and that attribute. -/
theorem C1_default_resolution (dp : StyleDict) (e : Elem) (k : String) (dv : PyVal)
    (h1 : k ≠ "errorbars_color") (h2 : k ≠ "errorbars_line_width")
    (h3 : k ≠ "cap_thickness")
    (hv : alookup e.attrs k = some (PyVal.str "default"))
    (hdp : dpGet dp e.typeName k = some dv)
    (hs1 : dv ≠ PyVal.str "same as curve")
    (hs2 : dv ≠ PyVal.str "same as scatter")
    (hok : (fillInMissingParamsSub dp e).2 = none) :
    alookup (fillInMissingParamsSub dp e).1.attrs k = some dv :=
  fillLoop_resolves e.typeName (e.attrs.map Prod.fst)
    { dp := dp, attrs := e.attrs, grew := false } k dv
    (alookup_mem_keys e.attrs k _ hv) h1 h2 h3 hdp hs1 hs2 hv hok

/-- Witness for C1: on `elemC1w` and `dpC1w` the amended theorem applies and
`color` is resolved to the style's `"red"`. -/
theorem C1_witness :
    alookup (fillInMissingParamsSub dpC1w elemC1w).1.attrs "color"
      = some (PyVal.str "red") :=
  C1_default_resolution dpC1w elemC1w "color" (PyVal.str "red")
    (by decide) (by decide) (by decide) rfl rfl (by decide) (by decide) rfl

/-- Claim C2: `SubFigure._fill_in_missing_params` and
`MultiFigure._fill_in_missing_params` implement the same resolution logic:
on equal style dictionaries and equal elements both produce identical final
states (and identical exception outcomes). -/
theorem C2_fill_duplication (dp : StyleDict) (e : Elem) :
    fillInMissingParamsSub dp e = fillInMissingParamsMulti dp e := by
  rw [fillInMissingParamsSub, fillInMissingParamsMulti, fillLoopM_eq]

/-- Claim C3 counterexample: the claim "an attribute the caller explicitly
set, such as errorbars_color, errorbars_line_width or cap_thickness, is
never overwritten by the resolution of some other attribute" is false: on
`elemC3`, whose `cap_thickness` was explicitly set to `5`, resolving the
still-unset `errorbars_color` against `dpC3` (entry `"same as curve"`)
completes without error and overwrites `cap_thickness` with the style's
`line_width` value `2`. -/
theorem C3_counterexample :
    alookup elemC3.attrs "cap_thickness" = some (PyVal.num 5)
    ∧ (fillInMissingParamsSub dpC3 elemC3).2 = none
    ∧ alookup (fillInMissingParamsSub dpC3 elemC3).1.attrs "cap_thickness"
        = some (PyVal.num 2) :=
  ⟨rfl, rfl, rfl⟩

/-- Claim C3 (amended): `_fill_in_missing_params` leaves unchanged every
attribute other than `errorbars_color`, `errorbars_line_width` and
`cap_thickness` whose value is not the sentinel `"default"`; those three
attributes may additionally be overwritten by the resolution of another
attribute whose style entry is `"same as curve"` or `"same as scatter"`. -/
theorem C3_frame (dp : StyleDict) (e : Elem) (k : String) (v : PyVal)
    (h1 : k ≠ "errorbars_color") (h2 : k ≠ "errorbars_line_width")
    (h3 : k ≠ "cap_thickness")
    (hv : alookup e.attrs k = some v) (hd : v ≠ PyVal.str "default") :
    alookup (fillInMissingParamsSub dp e).1.attrs k = some v :=
  fillLoop_preserve e.typeName (e.attrs.map Prod.fst) _ k v h1 h2 h3 hv hd

/-- Witness for C3: the explicitly set `line_width` of `elemC3w` survives
resolution against the empty style dictionary. -/
theorem C3_witness :
    alookup (fillInMissingParamsSub [] elemC3w).1.attrs "line_width"
      = some (PyVal.num 3) :=
  C3_frame [] elemC3w "line_width" (PyVal.num 3)
    (by decide) (by decide) (by decide) rfl (by decide)

/-- Claim C7: resolving defaults never corrupts the style source: both
`SubFigure._fill_in_missing_params` and `MultiFigure._fill_in_missing_params`
leave the loaded style dictionary `default_params` unchanged — all their
writes go into the element's own attribute dictionary. -/
theorem C7_style_dict_untouched (dp : StyleDict) (e : Elem) :
    (fillInMissingParamsSub dp e).1.dp = dp
    ∧ (fillInMissingParamsMulti dp e).1.dp = dp := by
  constructor
  · exact fillLoop_dp e.typeName (e.attrs.map Prod.fst) _
  · rw [fillInMissingParamsMulti, fillLoopM_eq]
    exact fillLoop_dp e.typeName (e.attrs.map Prod.fst) _

/-! ### Claims C5, C8, C9 -/

/-- Claim C5 (code-bug evaluation): `MultiFigure.add_SubFigure` bounds the
placement against `self.size` — the figure's physical size from the style's
`"size"` entry — not against the `num_rows` x `num_cols` grid.  On `mfA`
(a 10 x 10 grid of physical size 5 x 5) the grid-valid placement row 7 is
rejected with the `GraphingException`, while on `mfB` (a 2 x 2 grid of the
same physical size) the grid-invalid placement row 3 is accepted and a
`SubFigure` is appended. -/
theorem C5_placement_check_uses_size :
    addSubFigure mfA (7, 0, 1, 1) "x axis" "y axis" none none
        (some false) (some false) (some false) (some false) (some false)
      = Except.error (GErr.graphing
          "The placement value must be inside the size of the MultiFigure.")
    ∧ (0 : Int) ≤ 7 ∧ (7 : Int) < mfA.num_rows ∧ (0 : Int) < mfA.num_cols
    ∧ (addSubFigure mfB (3, 0, 1, 1) "x axis" "y axis" none none
        (some false) (some false) (some false) (some false) (some false)).toOption.map
          (fun p => p.1.subFigures.length) = some 1
    ∧ mfB.num_rows ≤ (3 : Int) :=
  ⟨rfl, by decide, by decide, by decide, rfl, by decide⟩

/-- Claim C8: constructing a `Heatmap` from a file-path string always forces
`show_color_bar` to `False`, overriding the caller's value; constructing it
from an array keeps the caller's value; and the `_xy_range` attribute exists
after construction exactly when both `x_axis_range` and `y_axis_range` are
given. -/
theorem C8_heatmap_post_init :
    (∀ (p : String) (x y : Option (Rat × Rat)) (cm : PyVal) (scb : Bool)
        (av : Rat) (ar op : PyVal) (ip : String),
        (heatmapPostInit ⟨HImage.file p, x, y, cm, scb, av, ar, op, ip⟩).show_color_bar
          = false)
    ∧ (∀ (a : List (List Rat)) (x y : Option (Rat × Rat)) (cm : PyVal) (scb : Bool)
        (av : Rat) (ar op : PyVal) (ip : String),
        (heatmapPostInit ⟨HImage.arr a, x, y, cm, scb, av, ar, op, ip⟩).show_color_bar
          = scb)
    ∧ (∀ h : HeatmapIn,
        (heatmapPostInit h).xyRange.isSome
          = (h.x_axis_range.isSome && h.y_axis_range.isSome)) := by
  refine ⟨fun p x y cm scb av ar op ip => rfl,
    fun a x y cm scb av ar op ip => rfl, fun h => ?_⟩
  rcases h with ⟨img, x, y, cm, scb, av, ar, op, ip⟩
  cases x with
  | none => cases y <;> cases img <;> rfl
  | some xv =>
    obtain ⟨x1, x2⟩ := xv
    cases y with
    | none => cases img <;> rfl
    | some yv =>
      obtain ⟨y1, y2⟩ := yv
      cases img <;> rfl

/-- Claim C9: `arrow_length_multiplier` has no effect on rendering: two
`VectorField`s differing only in that attribute make the `quiver` call with
identical arguments (the `scale=` line is commented out in the source). -/
theorem C9_arrow_length_multiplier_noninterference
    (vf : VectorFieldS) (m1 m2 : PyVal) (z : Nat) :
    vectorFieldPlotElement { vf with arrow_length_multiplier := m1 } z
      = vectorFieldPlotElement { vf with arrow_length_multiplier := m2 } z := rfl

/-! ### Lemmas about the prepare methods -/

theorem plotLoop_ok (dp : StyleDict) (es : List Elem) :
    ∀ (z : Nat) (es' : List Elem) (hs : List Nat) (tr : List BackendCall),
      plotLoop dp z es = Except.ok (es', hs, tr) →
      hs = handlesOf es ∧ tr = expectedPlots z es := by
  induction es with
  | nil =>
    intro z es' hs tr h
    rw [plotLoop] at h
    injection h with h
    injection h with h1 h
    injection h with h2 h3
    exact ⟨h2.symm, h3.symm⟩
  | cons e es ih =>
    intro z es' hs tr h
    rw [plotLoop] at h
    cases hfill : fillInMissingParamsSub dp e with
    | mk fs err =>
      rw [hfill] at h
      cases err with
      | some pe =>
        dsimp only at h
        exact Except.noConfusion h
      | none =>
        dsimp only at h
        cases hrec : plotLoop dp (nextZOrder e z) es with
        | error pe =>
          rw [hrec] at h
          exact Except.noConfusion h
        | ok triple =>
          obtain ⟨es0, hs0, tr0⟩ := triple
          rw [hrec] at h
          dsimp only at h
          injection h with h
          injection h with h1 h
          injection h with h2 h3
          obtain ⟨ihh, iht⟩ := ih (nextZOrder e z) es0 hs0 tr0 hrec
          constructor
          · rw [← h2, ihh]
            cases hl : e.label <;> simp [handlesOf, hl]
          · rw [← h3, iht, expectedPlots]

theorem plotCalls_append (a b : List BackendCall) :
    plotCalls (a ++ b) = plotCalls a ++ plotCalls b :=
  List.filter_append a b

theorem axesLegends_append (a b : List BackendCall) :
    axesLegends (a ++ b) = axesLegends a ++ axesLegends b :=
  List.filter_append a b

theorem figLegends_append (a b : List BackendCall) :
    figLegends (a ++ b) = figLegends a ++ figLegends b :=
  List.filter_append a b

theorem plotCalls_expectedPlots (es : List Elem) :
    ∀ z, plotCalls (expectedPlots z es) = expectedPlots z es := by
  induction es with
  | nil => intro z; rfl
  | cons e es ih =>
    intro z
    rw [expectedPlots]
    change BackendCall.plotElement e.handle z
      :: plotCalls (expectedPlots (nextZOrder e z) es) = _
    rw [ih (nextZOrder e z)]

theorem axesLegends_expectedPlots (es : List Elem) :
    ∀ z, axesLegends (expectedPlots z es) = [] := by
  induction es with
  | nil => intro z; rfl
  | cons e es ih =>
    intro z
    rw [expectedPlots]
    change axesLegends (expectedPlots (nextZOrder e z) es) = []
    exact ih (nextZOrder e z)

theorem figLegends_expectedPlots (es : List Elem) :
    ∀ z, figLegends (expectedPlots z es) = [] := by
  induction es with
  | nil => intro z; rfl
  | cons e es ih =>
    intro z
    rw [expectedPlots]
    change figLegends (expectedPlots (nextZOrder e z) es) = []
    exact ih (nextZOrder e z)

theorem prepareSubFigure_ok (sf : SubFigureS) (legend : Bool) (sf2 : SubFigureS)
    (ls : List String) (hs : List Nat) (tr : List BackendCall)
    (h : prepareSubFigure sf legend = Except.ok (sf2, ls, hs, tr)) :
    ls = sf.labels ∧ hs = sf.handles ++ handlesOf sf.elements
    ∧ tr = expectedPlots 0 sf.elements
        ++ (if (if sf.labels = [] then false else legend) = true then
              [BackendCall.axesLegend sf.labels (sf.handles ++ handlesOf sf.elements)
                true sf.legend_is_boxed]
            else []) := by
  rw [prepareSubFigure] at h
  dsimp only at h
  by_cases he : sf.elements = []
  · rw [if_pos he] at h
    exact Except.noConfusion h
  · rw [if_neg he] at h
    cases hp : plotLoop sf.default_params 0 sf.elements with
    | error pe =>
      rw [hp] at h
      exact Except.noConfusion h
    | ok triple =>
      obtain ⟨es2, hs0, tr0⟩ := triple
      rw [hp] at h
      dsimp only at h
      obtain ⟨hh, htr⟩ := plotLoop_ok sf.default_params sf.elements 0 es2 hs0 tr0 hp
      injection h with h
      injection h with h1 h
      injection h with h2 h
      injection h with h3 h4
      subst hh htr
      refine ⟨h2.symm, h3.symm, ?_⟩
      rw [← h4]
      by_cases hl : (if sf.labels = [] then false else legend) = true
      · rw [if_pos hl, if_pos hl]
      · rw [if_neg hl, if_neg hl, List.append_nil]

/-- Claim C6: `SubFigure._prepare_SubFigure` raises
`GraphingException("No curves to be plotted!")` if and only if the
`SubFigure`'s element list is empty; on success it issues exactly one plot
call per added element, in order, at the z-orders the source assigns
(starting at 0, incremented by 2 after each element except when the
`AttributeError` `continue` for a label-less element skips the increment),
and returns the pair of the label list and the handle list. -/
theorem C6_prepare_subfigure (sf : SubFigureS) (legend : Bool) :
    (prepareSubFigure sf legend
        = Except.error (GErr.graphing "No curves to be plotted!")
      ↔ sf.elements = [])
    ∧ (∀ sf2 ls hs tr, prepareSubFigure sf legend = Except.ok (sf2, ls, hs, tr) →
        plotCalls tr = expectedPlots 0 sf.elements
        ∧ ls = sf.labels ∧ hs = sf.handles ++ handlesOf sf.elements) := by
  constructor
  · constructor
    · intro h
      by_contra he
      rw [prepareSubFigure] at h
      dsimp only at h
      rw [if_neg he] at h
      cases hp : plotLoop sf.default_params 0 sf.elements with
      | error pe =>
        rw [hp] at h
        injection h with h
        exact GErr.noConfusion h
      | ok triple =>
        obtain ⟨es2, hs0, tr0⟩ := triple
        rw [hp] at h
        dsimp only at h
        exact Except.noConfusion h
    · intro he
      rw [prepareSubFigure]
      dsimp only
      rw [if_pos he]
  · intro sf2 ls hs tr h
    obtain ⟨h1, h2, h3⟩ := prepareSubFigure_ok sf legend sf2 ls hs tr h
    refine ⟨?_, h1, h2⟩
    rw [h3, plotCalls_append, plotCalls_expectedPlots]
    by_cases hl : (if sf.labels = [] then false else legend) = true
    · rw [if_pos hl]
      change expectedPlots 0 sf.elements ++ ([] : List BackendCall) = _
      rw [List.append_nil]
    · rw [if_neg hl]
      change expectedPlots 0 sf.elements ++ ([] : List BackendCall) = _
      rw [List.append_nil]

/-- Witness for C6: on `sfX` (a label-less element followed by a labelled
one) preparation succeeds, issues one plot call per element — both at
z-order 0, since the label-less element's `continue` skips the increment —
and returns the label and handle lists. -/
theorem C6_witness :
    plotCalls trX = expectedPlots 0 sfX.elements
    ∧ (["a"] : List String) = sfX.labels
    ∧ ([7] : List Nat) = sfX.handles ++ handlesOf sfX.elements :=
  (C6_prepare_subfigure sfX true).2 sfX2 ["a"] [7] trX rfl

theorem isEmpty_false_of_ne_nil {α : Type} (l : List α) (h : l ≠ []) :
    l.isEmpty = false := by
  cases l with
  | nil => exact absurd rfl h
  | cons a t => rfl

theorem falseNeTrue : ¬(false = true) := by decide

theorem axesLegends_nil : axesLegends [] = [] := rfl

theorem axesLegends_singleton (ls : List String) (hs : List Nat) (hm fr : Bool) :
    axesLegends [BackendCall.axesLegend ls hs hm fr]
      = [BackendCall.axesLegend ls hs hm fr] := rfl

theorem figLegends_singleton_axes (ls : List String) (hs : List Nat) (hm fr : Bool) :
    figLegends [BackendCall.axesLegend ls hs hm fr] = [] := rfl

theorem figLegends_singleton_fig (ls : List String) (hs : List Nat) (hm fr : Bool) :
    figLegends [BackendCall.figLegend ls hs hm fr]
      = [BackendCall.figLegend ls hs hm fr] := rfl

theorem axesLegends_singleton_fig (ls : List String) (hs : List Nat) (hm fr : Bool) :
    axesLegends [BackendCall.figLegend ls hs hm fr] = [] := rfl

theorem prepLoop_ok (legend : Bool) (subs : List SubFigureS) :
    ∀ subs2 ls hs tr, prepLoop legend subs = Except.ok (subs2, ls, hs, tr) →
      ls = (subs.map (fun sf => sf.labels)).join
      ∧ hs = (subs.map (fun sf => sf.handles ++ handlesOf sf.elements)).join
      ∧ figLegends tr = []
      ∧ axesLegends tr =
          (if legend = true then
            (subs.filter (fun sf => !sf.labels.isEmpty)).map
              (fun sf => BackendCall.axesLegend sf.labels
                (sf.handles ++ handlesOf sf.elements) true sf.legend_is_boxed)
          else []) := by
  induction subs with
  | nil =>
    intro subs2 ls hs tr h
    rw [prepLoop] at h
    injection h with h
    injection h with h1 h
    injection h with h2 h
    injection h with h3 h4
    subst h2 h3 h4
    refine ⟨rfl, rfl, rfl, ?_⟩
    by_cases hl : legend = true
    · rw [if_pos hl]; rfl
    · rw [if_neg hl]; rfl
  | cons sf subs ih =>
    intro subs2 ls hs tr h
    rw [prepLoop] at h
    cases hp : prepareSubFigure sf legend with
    | error e =>
      rw [hp] at h
      exact Except.noConfusion h
    | ok q =>
      obtain ⟨sf2, ls1, hs1, tr1⟩ := q
      rw [hp] at h
      dsimp only at h
      cases hr : prepLoop legend subs with
      | error e =>
        rw [hr] at h
        exact Except.noConfusion h
      | ok q2 =>
        obtain ⟨subs3, ls2, hs2, tr2⟩ := q2
        rw [hr] at h
        dsimp only at h
        injection h with h
        injection h with h1 h
        injection h with h2 h
        injection h with h3 h4
        obtain ⟨ih1, ih2, ih3, ih4⟩ := ih subs3 ls2 hs2 tr2 hr
        obtain ⟨g1, g2, g3⟩ := prepareSubFigure_ok sf legend sf2 ls1 hs1 tr1 hp
        subst ih1 ih2 g1 g2 g3
        refine ⟨?_, ?_, ?_, ?_⟩
        · rw [← h2]; simp [List.join]
        · rw [← h3]; simp [List.join]
        · rw [← h4, figLegends_append, ih3, figLegends_append,
            figLegends_expectedPlots, List.append_nil, List.nil_append]
          by_cases hl : (if sf.labels = [] then false else legend) = true
          · rw [if_pos hl]
            exact figLegends_singleton_axes sf.labels
              (sf.handles ++ handlesOf sf.elements) true sf.legend_is_boxed
          · rw [if_neg hl]
            rfl
        · rw [← h4, axesLegends_append, ih4, axesLegends_append,
            axesLegends_expectedPlots, List.nil_append]
          by_cases hle : legend = true
          · subst hle
            rw [if_pos rfl, if_pos rfl, List.filter_cons]
            by_cases hl : sf.labels = []
            · have hc1 : (if sf.labels = [] then false else true) = false := if_pos hl
              have hp2 : (!sf.labels.isEmpty) = false := by rw [hl]; rfl
              rw [hc1, if_neg falseNeTrue, axesLegends_nil, List.nil_append]
              simp only [hp2]
              rw [if_neg falseNeTrue]
            · have hc1 : (if sf.labels = [] then false else true) = true := if_neg hl
              have hp2 : (!sf.labels.isEmpty) = true := by
                rw [isEmpty_false_of_ne_nil sf.labels hl]; rfl
              rw [hc1, if_pos rfl, axesLegends_singleton]
              simp only [hp2]
              rw [if_pos trivial, List.map_cons, List.singleton_append]
          · have hlf : legend = false := by
              cases legend
              · rfl
              · exact absurd rfl hle
            subst hlf
            have hc1 : (if sf.labels = [] then false else false) = false := by
              by_cases hl : sf.labels = []
              · exact if_pos hl
              · exact if_neg hl
            rw [hc1, if_neg falseNeTrue, axesLegends_nil, List.nil_append,
              if_neg falseNeTrue, if_neg falseNeTrue]

/-- Claim C4: when `_prepare_MultiFigure` runs with `legend=True`, the
figure-level legend receives the concatenation of every `SubFigure`'s labels
and handles in the order the `SubFigure`s were added, together with the
composite handler map, and no per-axes legend is drawn; with `legend=False`
no figure-level legend is created and exactly the `SubFigure`s having at
least one label draw their own per-axes legend, in order. -/
theorem C4_multifigure_legend (mf mft mff : MultiFigureS)
    (trt trf : List BackendCall)
    (ht : prepareMultiFigure mf true = Except.ok (mft, trt))
    (hf : prepareMultiFigure mf false = Except.ok (mff, trf)) :
    figLegends trt = [BackendCall.figLegend
        ((mf.subFigures.map (fun sf => sf.labels)).join)
        ((mf.subFigures.map (fun sf => sf.handles ++ handlesOf sf.elements)).join)
        true mf.legend_is_boxed]
    ∧ axesLegends trt = []
    ∧ figLegends trf = []
    ∧ axesLegends trf =
        (mf.subFigures.filter (fun sf => !sf.labels.isEmpty)).map
          (fun sf => BackendCall.axesLegend sf.labels
            (sf.handles ++ handlesOf sf.elements) true sf.legend_is_boxed) := by
  rw [prepareMultiFigure] at ht hf
  dsimp only at ht hf
  cases hpt : prepLoop (!true) mf.subFigures with
  | error e =>
    rw [hpt] at ht
    exact Except.noConfusion ht
  | ok q =>
    obtain ⟨subs2, ls, hs, tr⟩ := q
    rw [hpt] at ht
    dsimp only at ht
    cases hpf : prepLoop (!false) mf.subFigures with
    | error e =>
      rw [hpf] at hf
      exact Except.noConfusion hf
    | ok q2 =>
      obtain ⟨subs2f, lsf, hsf, trF⟩ := q2
      rw [hpf] at hf
      dsimp only at hf
      injection ht with ht
      injection ht with ht1 ht2
      injection hf with hf
      injection hf with hf1 hf2
      obtain ⟨e1, e2, e3, e4⟩ := prepLoop_ok (!true) mf.subFigures subs2 ls hs tr hpt
      obtain ⟨f1, f2, f3, f4⟩ := prepLoop_ok (!false) mf.subFigures subs2f lsf hsf trF hpf
      subst e1 e2 f1 f2
      rw [if_pos rfl] at ht2
      rw [if_neg falseNeTrue] at hf2
      subst ht2 hf2
      have e4' : axesLegends tr = [] := by
        rw [e4, if_neg (by decide : ¬((!true) = true))]
      have f4' : axesLegends trF =
          (mf.subFigures.filter (fun sf => !sf.labels.isEmpty)).map
            (fun sf => BackendCall.axesLegend sf.labels
              (sf.handles ++ handlesOf sf.elements) true sf.legend_is_boxed) := by
        rw [f4, if_pos (by decide : (!false) = true)]
      refine ⟨?_, ?_, f3, f4'⟩
      · rw [figLegends_append, e3, List.nil_append, figLegends_singleton_fig]
      · rw [axesLegends_append, e4', List.nil_append, axesLegends_singleton_fig]

/-- Witness for C4: on `mfW` (one `SubFigure`, one labelled element) both
preparations succeed; with `legend=True` the trace carries the single
figure-level legend and no axes legend, with `legend=False` the single axes
legend and no figure-level legend. -/
theorem C4_witness :
    figLegends trtW = [BackendCall.figLegend ["a"] [7] true false]
    ∧ axesLegends trtW = []
    ∧ figLegends trfW = []
    ∧ axesLegends trfW = [BackendCall.axesLegend ["a"] [7] true true] :=
  C4_multifigure_legend mfW mfW2 mfW2 trtW trfW rfl rfl

/-- Claim C10: the reflected operators of `MathematicalObject` are defined by
the forward operators (`__radd__` = `__add__`, `__rmul__` = `__mul__`,
`__rsub__ = __sub__ * (-1)`, `__rtruediv__ = __truediv__ ** (-1)`), the
in-place operators return the corresponding binary operation's result
without mutating the receiver, and whenever the subclass's operators follow
ordinary arithmetic (over the rationals), `a - x` and `a / x` come out
correct. -/
theorem C10_mathematical_object :
    (∀ (M : Type) (O : MathematicalObject M) (x : M) (o : Operand M),
      O.radd x o = O.add x o
      ∧ O.rmul x o = O.mul x o
      ∧ O.rsub x o = O.mul (O.sub x o) (Sum.inr (-1))
      ∧ O.rtruediv x o = O.pow (O.div x o) (Sum.inr (-1))
      ∧ O.iadd x o = O.add x o
      ∧ O.isub x o = O.sub x o
      ∧ O.imul x o = O.mul x o
      ∧ O.itruediv x o = O.div x o
      ∧ O.ipow x o = O.pow x o)
    ∧ (∀ O : MathematicalObject Rat,
      (∀ x o, O.sub x o = x - interpRat o) →
      (∀ x o, O.mul x o = x * interpRat o) →
      (∀ x o, O.div x o = x / interpRat o) →
      (∀ x, O.pow x (Sum.inr (-1)) = x⁻¹) →
      (∀ x o, O.rsub x o = interpRat o - x)
      ∧ (∀ x o, O.rtruediv x o = interpRat o / x)) := by
  constructor
  · intro M O x o
    exact ⟨rfl, rfl, rfl, rfl, rfl, rfl, rfl, rfl, rfl⟩
  · intro O hsub hmul hdiv hpow
    constructor
    · intro x o
      rw [MathematicalObject.rsub, hmul, hsub]
      rw [show interpRat (Sum.inr (-1)) = -1 from rfl]
      ring
    · intro x o
      rw [MathematicalObject.rtruediv, hpow, hdiv]
      exact inv_div x (interpRat o)

/-- Witness for C10: for the rational stand-in subclass, `5 - 2` computed
through `__rsub__` is `3` and `5 / 2` computed through `__rtruediv__` is
`5/2`, and `__radd__` agrees with `__add__`. -/
theorem C10_witness :
    ratMathOps.rsub 2 (Sum.inl 5) = 3
    ∧ ratMathOps.rtruediv 2 (Sum.inl 5) = 5 / 2
    ∧ ratMathOps.radd 2 (Sum.inl 5) = ratMathOps.add 2 (Sum.inl 5) := by
  have h := C10_mathematical_object
  have h2 := h.2 ratMathOps (fun x o => rfl) (fun x o => rfl) (fun x o => rfl)
    (fun x => by simp [ratMathOps, interpRat])
  refine ⟨?_, ?_, (h.1 Rat ratMathOps 2 (Sum.inl 5)).1⟩
  · rw [h2.1 2 (Sum.inl 5)]
    norm_num [interpRat]
  · rw [h2.2 2 (Sum.inl 5)]
    norm_num [interpRat]
